import Mathlib

/-!
Shallow embedding of `client/service/src/metrics.rs`: the periodic metrics
sampler. It covers the duration-series reducer (`TimeSeriesInfo::from`), the
TCP connection-state classifier (`connections_info`), process sampling
(`process_info` and `_process_info_for` on the unix tier), the all-or-nothing
gauge registration (`PrometheusMetrics::setup` / `with_prometheus`), and the
per-tick orchestration (`tick`) rendered as an explicit effect trace.

Machine integers are modelled as `Nat`; u64 arithmetic that can overflow (the
sample-sum fold) is reduced modulo `2 ^ 64`, matching the wrapping behaviour
of Rust release builds. Fallible OS queries are modelled as explicit oracle
inputs; a Rust `expect` that can fire is modelled by an `Option` result where
`none` stands for the panic.
-/

namespace Metrics

/-- Size of the u64 value space; u64 addition in Rust release builds wraps
modulo this constant. -/
def U64SIZE : Nat := 2 ^ 64

/-- Mirrors `struct TimeSeriesInfo` (five u64 fields). -/
structure TimeSeriesInfo where
  count : Nat
  lower_median : Nat
  median : Nat
  higher_median : Nat
  average : Nat
deriving DecidableEq

/-- Mirrors `impl From<Vec<u64>> for TimeSeriesInfo`. The Rust `match count`
with early return is rendered as an if-chain. `input.sort()` is a stable
ascending sort; on `Nat` the sorted permutation of a list is unique, so
insertion sort is an exact model. Rust indexing `input[i]` panics out of
bounds; it is rendered as `getD i 0`, and the indices are proved in bounds
(claim C10) so the default is never consulted. The summing `fold` uses
wrapping u64 addition, as the source does in release builds; it runs over the
vector after the in-place sort. `u64::try_from(count)` cannot fail on a
64-bit platform and is the identity here. -/
def TimeSeriesInfo.fromList (input : List Nat) : TimeSeriesInfo :=
  if input.length = 0 then
    { count := 0, lower_median := 0, median := 0, higher_median := 0, average := 0 }
  else if input.length = 1 then
    let v := input.getD 0 0
    { count := 1, lower_median := v, median := v, higher_median := v, average := v }
  else
    let sorted := List.insertionSort (· ≤ ·) input
    let median_pos := input.length / 2
    let median_dif := median_pos / 2
    let average := (sorted.foldl (fun acc val => (acc + val) % U64SIZE) 0) / input.length
    { count := input.length,
      lower_median := sorted.getD (median_pos - median_dif) 0,
      median := sorted.getD median_pos 0,
      higher_median := sorted.getD (median_pos + median_dif) 0,
      average := average }

/-- The TCP states of the `netstat2` crate (`netstat2::TcpState`), the type
matched by `connections_info`. -/
inductive TcpState where
  | Closed
  | Listen
  | SynSent
  | SynReceived
  | Established
  | FinWait1
  | FinWait2
  | CloseWait
  | Closing
  | LastAck
  | TimeWait
  | DeleteTcb
  | Unknown
deriving DecidableEq

/-- Mirrors `struct ConnectionsCount` (six u64 counters). -/
structure ConnectionsCount where
  listen : Nat
  established : Nat
  starting : Nat
  closing : Nat
  closed : Nat
  other : Nat
deriving DecidableEq

/-- `ConnectionsCount::default()`: all six counters zero. -/
def ConnectionsCount.default : ConnectionsCount :=
  { listen := 0, established := 0, starting := 0, closing := 0, closed := 0, other := 0 }

/-- The six counter names of `ConnectionsCount`, used to state the
partition property. -/
inductive Bucket where
  | listen
  | established
  | starting
  | closing
  | closed
  | other
deriving DecidableEq

/-- Field accessor of `ConnectionsCount` by bucket name. -/
def ConnectionsCount.get (c : ConnectionsCount) : Bucket → Nat
  | .listen => c.listen
  | .established => c.established
  | .starting => c.starting
  | .closing => c.closing
  | .closed => c.closed
  | .other => c.other

/-- The bucket a TCP state is classified into, read off the `match` arms of
the fold in `connections_info` (lines 323-335). -/
def bucketOf : TcpState → Bucket
  | .Listen => .listen
  | .Established => .established
  | .Closed => .closed
  | .SynSent | .SynReceived => .starting
  | .FinWait1 | .FinWait2 | .CloseWait | .Closing | .LastAck => .closing
  | _ => .other

/-- One step of the fold in `connections_info`: increment the counter the
socket state belongs to. Mirrors the `match socket_state` arms verbatim. -/
def ConnectionsCount.countState (counter : ConnectionsCount) (socket_state : TcpState) :
    ConnectionsCount :=
  match socket_state with
  | .Listen => { counter with listen := counter.listen + 1 }
  | .Established => { counter with established := counter.established + 1 }
  | .Closed => { counter with closed := counter.closed + 1 }
  | .SynSent | .SynReceived => { counter with starting := counter.starting + 1 }
  | .FinWait1 | .FinWait2 | .CloseWait | .Closing | .LastAck =>
      { counter with closing := counter.closing + 1 }
  | _ => { counter with other := counter.other + 1 }

/-- Sum of the six counters. -/
def ConnectionsCount.total (c : ConnectionsCount) : Nat :=
  c.listen + c.established + c.starting + c.closing + c.closed + c.other

/-- Mirrors `netstat2::ProtocolSocketInfo`: a socket is either TCP (with a
state) or UDP. Only the state is consumed by the classifier. -/
inductive ProtocolSocketInfo where
  | tcp (state : TcpState)
  | udp
deriving DecidableEq

/-- The part of `netstat2::SocketInfo` the classifier reads: the owning pid
set (u32 pids) and the protocol-specific payload. -/
structure SocketInfo where
  associated_pids : List Nat
  protocol_socket_info : ProtocolSocketInfo
deriving DecidableEq

/-- The closure inside the `filter_map` of `connections_info` applied to one
readable socket record: keep the TCP state of sockets owned by this
process. -/
def socketState (netstat_pid : Nat) (s : SocketInfo) : Option TcpState :=
  if s.associated_pids.contains netstat_pid then
    match s.protocol_socket_info with
    | .tcp state => some state
    | _ => none
  else none

/-- Mirrors `MetricsService::connections_info`. The `self.pid` field and the
result of `iterate_sockets_info` (a fallible iterator of fallible entries)
are explicit inputs: `pid = none` models an unknown process identifier,
`socketsResult = none` models the enumeration itself failing, and an
`Except.error` entry models one unreadable socket record (dropped by
`r.ok()` inside the `filter_map`). The `*pid as u32` cast is the
reinterpretation of the i32 bit pattern, i.e. reduction modulo `2 ^ 32`. -/
def connections_info (pid : Option Int)
    (socketsResult : Option (List (Except Unit SocketInfo))) : Option ConnectionsCount :=
  pid.bind fun p =>
    let netstat_pid : Nat := (p % (2 ^ 32)).toNat
    socketsResult.map fun iter =>
      (iter.filterMap fun r => r.toOption.bind (socketState netstat_pid)).foldl
        ConnectionsCount.countState ConnectionsCount.default

/-- Mirrors `procfs::process::FDTarget`: the kinds a unix file descriptor
target is classified into. -/
inductive FDTarget where
  | path
  | socket
  | net
  | pipe
  | anonInode
  | memFD
  | other
deriving DecidableEq

/-- Mirrors `struct FdCounter` (seven u64 counters). -/
structure FdCounter where
  paths : Nat
  sockets : Nat
  net : Nat
  pipes : Nat
  anon_inode : Nat
  mem : Nat
  other : Nat
deriving DecidableEq

/-- `FdCounter::default()`: all seven counters zero. -/
def FdCounter.default : FdCounter :=
  { paths := 0, sockets := 0, net := 0, pipes := 0, anon_inode := 0, mem := 0, other := 0 }

/-- One step of the descriptor fold in `process_info` (lines 244-255). -/
def FdCounter.countFd (f : FdCounter) (target : FDTarget) : FdCounter :=
  match target with
  | .path => { f with paths := f.paths + 1 }
  | .socket => { f with sockets := f.sockets + 1 }
  | .net => { f with net := f.net + 1 }
  | .pipe => { f with pipes := f.pipes + 1 }
  | .anonInode => { f with anon_inode := f.anon_inode + 1 }
  | .memFD => { f with mem := f.mem + 1 }
  | .other => { f with other := f.other + 1 }

/-- The descriptor fold of `process_info`: classify every open descriptor. -/
def countFds (targets : List FDTarget) : FdCounter :=
  targets.foldl FdCounter.countFd FdCounter.default

/-- Mirrors `struct ProcessInfo`. The f64 `cpu_usage` is carried at an
abstract payload type `F` (no float arithmetic happens in the source: the
value is passed through). `Default` for `ProcessInfo` gives cpu 0.0 and
memory 0; the zero of `F` is its `Inhabited.default`. -/
structure ProcessInfo (F : Type) where
  cpu_usage : F
  memory : Nat
  threads : Option Nat
  open_fd : Option FdCounter

/-- `ProcessInfo::default()`. -/
def ProcessInfo.zero (F : Type) [Inhabited F] : ProcessInfo F :=
  { cpu_usage := default, memory := 0, threads := none, open_fd := none }

/-- What `sysinfo` exposes for a refreshed process: the two values the
source reads. -/
structure SysProcessData (F : Type) where
  cpu_usage : F
  memory : Nat

/-- Oracle for one unix `process_info` call: the outcome of each OS query the
source issues.
`refreshOk` is the boolean returned by `System::refresh_process`; `proc` is
what `System::get_process` would return afterwards (the `sysinfo` contract
makes it `some` whenever the refresh returned true, which the source relies
on through an `expect`); `procNewOk` records whether the per-tick
`procfs::process::Process::new(pid)` lookup succeeds (its failure fires the
`expect` at line 240); `statResult` is `stat().ok()` reduced to the thread
count (procfs reports a nonnegative count, converted i64 to u64 by the
source); `fdResult` is `fd().ok()` reduced to the descriptor target list. -/
structure ProcessEnv (F : Type) where
  refreshOk : Bool
  proc : Option (SysProcessData F)
  procNewOk : Bool
  statResult : Option Nat
  fdResult : Option (List FDTarget)

/-- Mirrors `MetricsService::_process_info_for` (lines 294-303). Returns
`none` exactly when the code would panic: the refresh reported success but
`get_process` has nothing (the `expect` at line 298). When the refresh
fails, the default (zero-valued) `ProcessInfo` is returned. -/
def processInfoFor {F : Type} [Inhabited F] (env : ProcessEnv F) : Option (ProcessInfo F) :=
  if env.refreshOk then
    env.proc.map fun prc =>
      { ProcessInfo.zero F with cpu_usage := prc.cpu_usage, memory := prc.memory }
  else
    some (ProcessInfo.zero F)

/-- Mirrors the unix `MetricsService::process_info` (lines 237-258). Returns
`none` exactly when the code would panic; in particular the
`procfs::process::Process::new(pid).expect("Our process exists. qed.")` at
line 240 panics whenever the per-tick procfs lookup fails. Otherwise the
thread count and descriptor breakdown are filled in from the fallible
queries, each degrading to `none` on failure. -/
def process_info {F : Type} [Inhabited F] (env : ProcessEnv F) : Option (ProcessInfo F) :=
  match processInfoFor env with
  | none => none
  | some info =>
    if env.procNewOk then
      some { info with threads := env.statResult, open_fd := env.fdResult.map countFds }
    else
      none

/-- Registration errors of the metrics registry, kept abstract. -/
structure PrometheusError where
  msg : String
deriving DecidableEq

/-- The gauge names registered by `PrometheusMetrics::setup`, in source
order: the two gauges set eagerly (lines 53-64), then the struct literal
fields (lines 66-145). -/
def gaugeNames : List String :=
  [ "build_info",
    "node_roles",
    "load_avg",
    "memory_usage_bytes",
    "cpu_usage_percentage",
    "netstat_tcp",
    "threads",
    "open_file_handles",
    "block_height_number",
    "ready_transactions_number",
    "block_import",
    "network_per_sec_bytes",
    "database_cache_bytes",
    "state_cache_bytes",
    "state_db_cache_bytes",
    "tokio",
    "internals",
    "internals_unbounded_channels" ]

/-- Sequential gauge registration with early exit: each name is registered
in order, and the first failure aborts the whole sequence through `?`. The
registry is an oracle mapping each gauge name to `none` (creation and
registration succeed) or `some e` (one of the two fallible steps for that
name fails with `e`). Returns the registered names. -/
def setupRegister (reg : String → Option PrometheusError) :
    List String → Except PrometheusError (List String)
  | [] => .ok []
  | n :: rest =>
    match reg n with
    | some e => .error e
    | none => (setupRegister reg rest).map fun ns => n :: ns

/-- Mirrors `PrometheusMetrics::setup`: register every gauge, failing as a
whole on the first error. -/
def prometheusSetup (reg : String → Option PrometheusError) :
    Except PrometheusError (List String) :=
  setupRegister reg gaugeNames

/-- Mirrors `struct MetricsService` for the construction claims: whether a
sink is present, and the resolved pid. -/
structure MetricsService where
  metrics : Option Unit
  pid : Option Int

/-- Mirrors `MetricsService::with_prometheus` (lines 282-288): run `setup`
and only on success build the service around the sink. -/
def with_prometheus (reg : String → Option PrometheusError) (pid : Int) :
    Except PrometheusError MetricsService :=
  (prometheusSetup reg).map fun _ => { metrics := some (), pid := some pid }

/-- The gauge handles held by `PrometheusMetrics`, named after its fields.
The source writes through these typed handles; the registered metric name of
each is fixed at construction. -/
inductive GaugeFamily where
  | load_avg
  | cpu_usage_percentage
  | memory_usage_bytes
  | netstat
  | threads
  | open_files
  | block_height_number
  | ready_transactions_number
  | block_import
  | network_per_sec_bytes
  | database_cache
  | state_cache
  | state_db
  | tokio
  | unbounded_channels
  | internals
deriving DecidableEq

/-- A value written to a gauge: u64 or an opaque f64 payload. -/
inductive GaugeVal (F : Type) where
  | u (v : Nat)
  | f (x : F)
deriving DecidableEq

/-- The payload of the one `telemetry!` event sent per tick (lines 357-382),
field for field. Hashes are opaque and modelled as `Nat`. -/
structure TelemetryEvent (F : Type) where
  peers : Nat
  height : Nat
  best : Nat
  txcount : Nat
  cpu : F
  memory : Nat
  finalized_height : Nat
  finalized_hash : Nat
  bandwidth_download : Nat
  bandwidth_upload : Nat
  used_state_cache_size : Nat
  used_db_cache_size : Nat
  disk_read_per_sec : Nat
  disk_write_per_sec : Nat
deriving DecidableEq

/-- One observable effect of a tick: the telemetry push, the atomic drain of
the global event buffer, or one labelled gauge write. -/
inductive Effect (F : Type) where
  | telemetry (ev : TelemetryEvent F)
  | flushSeries
  | gaugeSet (gauge : GaugeFamily) (label : Option String) (v : GaugeVal F)
deriving DecidableEq

/-- The slice of `ClientInfo` the tick reads. -/
structure UsageInfo where
  database_cache : Nat
  state_cache : Nat
  state_db_non_canonical : Nat
  state_db_pruning : Option Nat
  state_db_pinned : Nat
  bytes_read : Nat
  bytes_written : Nat
deriving DecidableEq

/-- The slice of `ClientInfo` the tick reads: chain head data plus the
optional usage report. -/
structure ClientInfoM where
  best_number : Nat
  best_hash : Nat
  finalized_number : Nat
  finalized_hash : Nat
  usage : Option UsageInfo
deriving DecidableEq

/-- The slice of `PoolStatus` the tick reads. -/
structure PoolStatusM where
  ready : Nat
deriving DecidableEq

/-- The slice of `NetworkStatus` the tick reads. -/
structure NetworkStatusM where
  num_connected_peers : Nat
  average_download_per_sec : Nat
  average_upload_per_sec : Nat
  best_seen_block : Option Nat
deriving DecidableEq

/-- Grouping step of the series fold (lines 452-461): push the value onto
the entry of its key, creating the entry on first sight. The model keeps the
grouped map as an association list in first-appearance key order (the
source's HashMap iteration order is unspecified; the claims about it are
order-independent). -/
def insertSample (h : List (String × List Nat)) (key : String) (value : Nat) :
    List (String × List Nat) :=
  match h with
  | [] => [(key, [value])]
  | (k, vs) :: rest =>
    if k = key then (k, vs ++ [value]) :: rest
    else (k, vs) :: insertSample rest key value

/-- Group the drained buffer by key, preserving arrival order within each
key (lines 452-461). -/
def groupSeries (series : List (String × Nat)) : List (String × List Nat) :=
  series.foldl (fun h kv => insertSample h kv.1 kv.2) []

/-- The seven descriptor-breakdown writes (lines 396-402), in source order
and with the source's label strings. -/
def fdWrites (F : Type) (fd : FdCounter) : List (Effect F) :=
  [ .gaugeSet .open_files (some "paths") (.u fd.paths),
    .gaugeSet .open_files (some "mem") (.u fd.mem),
    .gaugeSet .open_files (some "sockets") (.u fd.sockets),
    .gaugeSet .open_files (some "net") (.u fd.net),
    .gaugeSet .open_files (some "pipe") (.u fd.pipes),
    .gaugeSet .open_files (some "anon_inode") (.u fd.anon_inode),
    .gaugeSet .open_files (some "other") (.u fd.other) ]

/-- The six connection-state writes (lines 434-439). -/
def netstatWrites (F : Type) (conns : ConnectionsCount) : List (Effect F) :=
  [ .gaugeSet .netstat (some "listen") (.u conns.listen),
    .gaugeSet .netstat (some "established") (.u conns.established),
    .gaugeSet .netstat (some "starting") (.u conns.starting),
    .gaugeSet .netstat (some "closing") (.u conns.closing),
    .gaugeSet .netstat (some "closed") (.u conns.closed),
    .gaugeSet .netstat (some "other") (.u conns.other) ]

/-- One write of the low-level counter loop (lines 442-450): the `tokio_`
and `mpsc_` key spaces are routed to their own families with the leading
marker stripped, everything else goes to `internals` verbatim. -/
def lowLevelWrite (F : Type) (kv : String × Nat) : Effect F :=
  if kv.1.startsWith "tokio_" then .gaugeSet .tokio (some (kv.1.drop 6)) (.u kv.2)
  else if kv.1.startsWith "mpsc_" then .gaugeSet .unbounded_channels (some (kv.1.drop 5)) (.u kv.2)
  else .gaugeSet .internals (some kv.1) (.u kv.2)

/-- The five fixed writes for the reserved `block_imports` key
(lines 463-470). -/
def blockImportWrites (F : Type) (values : List Nat) : List (Effect F) :=
  let info := TimeSeriesInfo.fromList values
  [ .gaugeSet .block_import (some "count") (.u info.count),
    .gaugeSet .block_import (some "time_average") (.u info.average),
    .gaugeSet .block_import (some "time_median") (.u info.median),
    .gaugeSet .block_import (some "time_lower_median") (.u info.lower_median),
    .gaugeSet .block_import (some "time_higher_median") (.u info.higher_median) ]

/-- The five generic writes for one non-reserved series key (lines 472-479),
with the label suffixes exactly as the source formats them; note the source
writes `_lower_media` for the lower median. -/
def seriesWrites (F : Type) (key : String) (values : List Nat) : List (Effect F) :=
  let info := TimeSeriesInfo.fromList values
  [ .gaugeSet .internals (some (key ++ "_count")) (.u info.count),
    .gaugeSet .internals (some (key ++ "_average")) (.u info.average),
    .gaugeSet .internals (some (key ++ "_median")) (.u info.median),
    .gaugeSet .internals (some (key ++ "_lower_media")) (.u info.lower_median),
    .gaugeSet .internals (some (key ++ "_higher_median")) (.u info.higher_median) ]

/-- The writes for all non-reserved series keys, in grouped order. -/
def genericSeriesWrites (F : Type) (grouped : List (String × List Nat)) : List (Effect F) :=
  grouped.foldr (fun p acc => seriesWrites F p.1 p.2 ++ acc) []

/-- Every gauge write of the sink branch of `tick` (lines 388-479), in
source order. `conns` is the result of `connections_info`, `lowLevel` the
snapshot of the low-level counter map (iteration order modelled as the list
order), `series` the drained event buffer. -/
def gaugeWrites {F : Type} (pinfo : ProcessInfo F) (load1 load5 load15 : F)
    (info : ClientInfoM) (txpool : PoolStatusM) (net : NetworkStatusM)
    (conns : Option ConnectionsCount) (lowLevel : List (String × Nat))
    (series : List (String × Nat)) : List (Effect F) :=
  [ Effect.gaugeSet .cpu_usage_percentage none (.f pinfo.cpu_usage),
    Effect.gaugeSet .memory_usage_bytes none (.u pinfo.memory) ]
  ++ (match pinfo.threads with
      | some t => [Effect.gaugeSet .threads none (.u t)]
      | none => [])
  ++ (match pinfo.open_fd with
      | some fd => fdWrites F fd
      | none => [])
  ++ [ Effect.gaugeSet .load_avg (some "1min") (.f load1),
       Effect.gaugeSet .load_avg (some "5min") (.f load5),
       Effect.gaugeSet .load_avg (some "15min") (.f load15),
       Effect.gaugeSet .network_per_sec_bytes (some "download") (.u net.average_download_per_sec),
       Effect.gaugeSet .network_per_sec_bytes (some "upload") (.u net.average_upload_per_sec),
       Effect.gaugeSet .block_height_number (some "finalized") (.u info.finalized_number),
       Effect.gaugeSet .block_height_number (some "best") (.u info.best_number),
       Effect.gaugeSet .ready_transactions_number none (.u txpool.ready) ]
  ++ (match net.best_seen_block with
      | some b => [Effect.gaugeSet .block_height_number (some "sync_target") (.u b)]
      | none => [])
  ++ (match info.usage with
      | some u =>
        [ Effect.gaugeSet .database_cache none (.u u.database_cache),
          Effect.gaugeSet .state_cache none (.u u.state_cache),
          Effect.gaugeSet .state_db (some "non_canonical") (.u u.state_db_non_canonical) ]
        ++ (match u.state_db_pruning with
            | some pr => [Effect.gaugeSet .state_db (some "pruning") (.u pr)]
            | none => [])
        ++ [Effect.gaugeSet .state_db (some "pinned") (.u u.state_db_pinned)]
      | none => [])
  ++ (match conns with
      | some c => netstatWrites F c
      | none => [])
  ++ lowLevel.map (lowLevelWrite F)
  ++ (let grouped := groupSeries series
      let rest := grouped.filter fun p => !(p.1 == "block_imports")
      (match List.lookup "block_imports" grouped with
       | some vs => blockImportWrites F vs
       | none => [])
      ++ genericSeriesWrites F rest)

/-- The post-sampling remainder of `MetricsService::tick` (lines 357-482) as
an effect trace plus the post-tick content of the global event buffer, given
the sample the `self.process_info()` call at line 355 produced; `tickRun`
below models the full invocation including that call and its abort path. The
telemetry event is built and sent first; then
`GLOBAL_METRICS.flush_series()` drains the buffer unconditionally; then,
only if a sink is present, every gauge write happens. `load1/5/15` are the
host load averages; `pid` and `sockets` feed `connections_info`. Returns the
trace and the (always empty) buffer left behind by the drain. -/
def tick {F : Type} (metrics : Option Unit) (info : ClientInfoM) (txpool : PoolStatusM)
    (net : NetworkStatusM) (pinfo : ProcessInfo F) (load1 load5 load15 : F)
    (pid : Option Int) (sockets : Option (List (Except Unit SocketInfo)))
    (lowLevel : List (String × Nat)) (buffer : List (String × Nat)) :
    List (Effect F) × List (String × Nat) :=
  let ev : TelemetryEvent F :=
    { peers := net.num_connected_peers,
      height := info.best_number,
      best := info.best_hash,
      txcount := txpool.ready,
      cpu := pinfo.cpu_usage,
      memory := pinfo.memory,
      finalized_height := info.finalized_number,
      finalized_hash := info.finalized_hash,
      bandwidth_download := net.average_download_per_sec,
      bandwidth_upload := net.average_upload_per_sec,
      used_state_cache_size := (info.usage.map fun u => u.state_cache).getD 0,
      used_db_cache_size := (info.usage.map fun u => u.database_cache).getD 0,
      disk_read_per_sec := (info.usage.map fun u => u.bytes_read).getD 0,
      disk_write_per_sec := (info.usage.map fun u => u.bytes_written).getD 0 }
  let series := buffer
  let trace :=
    [Effect.telemetry ev, Effect.flushSeries]
    ++ (match metrics with
        | some _ =>
          gaugeWrites pinfo load1 load5 load15 info txpool net
            (connections_info pid sockets) lowLevel series
        | none => [])
  (trace, [])

/-- One full invocation of `MetricsService::tick` (lines 340-482), including
the process-sampling call `self.process_info()` at line 355, which runs
before the telemetry send (line 357) and the buffer drain (line 385). The
reads preceding it (lines 347-354) are effect-free, so a sampling panic
(modelled by `process_info` returning `none`) aborts the invocation before
any observable effect: no telemetry, no drain, no gauge write, and the
buffer keeps its content. On a returned sample the invocation completes as
`tick`. -/
def tickRun {F : Type} [Inhabited F] (metrics : Option Unit) (info : ClientInfoM)
    (txpool : PoolStatusM) (net : NetworkStatusM) (penv : ProcessEnv F)
    (load1 load5 load15 : F) (pid : Option Int)
    (sockets : Option (List (Except Unit SocketInfo)))
    (lowLevel : List (String × Nat)) (buffer : List (String × Nat)) :
    Option (List (Effect F) × List (String × Nat)) :=
  match process_info penv with
  | none => none
  | some pinfo =>
    some (tick metrics info txpool net pinfo load1 load5 load15 pid sockets lowLevel buffer)

/-- Select a descriptor-breakdown gauge write: its label and value. -/
def openFdPick (F : Type) : Effect F → Option (String × GaugeVal F)
  | .gaugeSet .open_files (some l) v => some (l, v)
  | _ => none

/-- The label and value of every descriptor-breakdown gauge write in a
trace, in order. -/
def openFdLabelValues {F : Type} (trace : List (Effect F)) : List (String × GaugeVal F) :=
  trace.filterMap (openFdPick F)

/-- Select a write to the `internals` gauge family: its label. -/
def internalsPick (F : Type) : Effect F → Option String
  | .gaugeSet .internals (some l) _ => some l
  | _ => none

/-- The label of every write to the `internals` gauge family in a trace, in
order. -/
def internalsLabels {F : Type} (trace : List (Effect F)) : List String :=
  trace.filterMap (internalsPick F)

/-- A concrete client snapshot for closed evaluations. -/
def infoC : ClientInfoM :=
  { best_number := 7, best_hash := 1, finalized_number := 5, finalized_hash := 2, usage := none }

/-- A concrete transaction-queue snapshot for closed evaluations. -/
def txpoolC : PoolStatusM := { ready := 3 }

/-- A concrete network snapshot for closed evaluations. -/
def netC : NetworkStatusM :=
  { num_connected_peers := 4, average_download_per_sec := 9, average_upload_per_sec := 8,
    best_seen_block := none }

/-- A concrete process sample with a descriptor breakdown, for closed
evaluations. -/
def pinfoWithFd : ProcessInfo Unit :=
  { cpu_usage := (), memory := 0, threads := none,
    open_fd := some { paths := 1, sockets := 2, net := 3, pipes := 4,
                      anon_inode := 5, mem := 6, other := 7 } }

/-- A concrete process sample without a descriptor breakdown, for closed
evaluations. -/
def pinfoPlain : ProcessInfo Unit :=
  { cpu_usage := (), memory := 0, threads := none, open_fd := none }

theorem foldl_wrap (l : List Nat) (a : Nat) :
    l.foldl (fun acc val => (acc + val) % U64SIZE) (a % U64SIZE) = (a + l.sum) % U64SIZE := by
  induction l generalizing a with
  | nil => simp
  | cons x xs ih =>
    simp only [List.foldl_cons, List.sum_cons]
    rw [Nat.mod_add_mod, ih (a + x), Nat.add_assoc]

theorem fromList_eq_sorted (l : List Nat) (h2 : 2 ≤ l.length) :
    TimeSeriesInfo.fromList l =
      { count := l.length,
        lower_median := (List.insertionSort (· ≤ ·) l).getD (l.length / 2 - l.length / 2 / 2) 0,
        median := (List.insertionSort (· ≤ ·) l).getD (l.length / 2) 0,
        higher_median := (List.insertionSort (· ≤ ·) l).getD (l.length / 2 + l.length / 2 / 2) 0,
        average := l.sum % U64SIZE / l.length } := by
  unfold TimeSeriesInfo.fromList
  rw [if_neg (by omega), if_neg (by omega)]
  have hsum : (List.insertionSort (· ≤ ·) l).sum = l.sum :=
    (List.perm_insertionSort _ l).sum_eq
  have hfold : (List.insertionSort (· ≤ ·) l).foldl (fun acc val => (acc + val) % U64SIZE) 0
      = l.sum % U64SIZE := by
    have h := foldl_wrap (List.insertionSort (· ≤ ·) l) 0
    rwa [Nat.zero_mod, Nat.zero_add, hsum] at h
  simp only [hfold]

/-- Claim C1 (amended): for every input list with at least two samples, the
reducer sorts ascending (the result agreeing with any sorted permutation of
the input) and reads the order statistics at positions p, p - d and p + d of
the sorted list, where p = count div 2 and d = p div 2; the average is
floor((sum mod 2^64) / count), the summing fold wrapping at 64 bits as u64
addition does in release builds. The two worked examples hold in any input
order: any permutation of [1,2,3,4,5] reduces to count 5, lower_median 2,
median 3, higher_median 4, average 3, and any permutation of [10,20] to
count 2, all three medians 20, average 15. -/
theorem claim1_series_reduction :
    (∀ l s : List Nat, 2 ≤ l.length → List.Sorted (· ≤ ·) s → l.Perm s →
      TimeSeriesInfo.fromList l =
        { count := l.length,
          lower_median := s.getD (l.length / 2 - l.length / 2 / 2) 0,
          median := s.getD (l.length / 2) 0,
          higher_median := s.getD (l.length / 2 + l.length / 2 / 2) 0,
          average := l.sum % U64SIZE / l.length }) ∧
    (∀ l : List Nat, l.Perm [1, 2, 3, 4, 5] →
      TimeSeriesInfo.fromList l = ⟨5, 2, 3, 4, 3⟩) ∧
    (∀ l : List Nat, l.Perm [10, 20] →
      TimeSeriesInfo.fromList l = ⟨2, 20, 20, 20, 15⟩) := by
  refine ⟨fun l s h2 hs hp => ?_, fun l hp => ?_, fun l hp => ?_⟩
  · have hsort : List.insertionSort (· ≤ ·) l = s :=
      List.eq_of_perm_of_sorted ((List.perm_insertionSort _ l).trans hp)
        (List.sorted_insertionSort _ l) hs
    rw [fromList_eq_sorted l h2, hsort]
  · have hlen : l.length = 5 := hp.length_eq
    have hsum : l.sum = 15 := by rw [hp.sum_eq]; rfl
    have hsort : List.insertionSort (· ≤ ·) l = [1, 2, 3, 4, 5] :=
      List.eq_of_perm_of_sorted ((List.perm_insertionSort _ l).trans hp)
        (List.sorted_insertionSort _ l) (by decide)
    rw [fromList_eq_sorted l (by omega), hsort, hlen, hsum]
    decide
  · have hlen : l.length = 2 := hp.length_eq
    have hsum : l.sum = 30 := by rw [hp.sum_eq]; rfl
    have hsort : List.insertionSort (· ≤ ·) l = [10, 20] :=
      List.eq_of_perm_of_sorted ((List.perm_insertionSort _ l).trans hp)
        (List.sorted_insertionSort _ l) (by decide)
    rw [fromList_eq_sorted l (by omega), hsort, hlen, hsum]
    decide

theorem claim1_series_reduction_witness :
    TimeSeriesInfo.fromList [3, 1, 5, 2, 4] = ⟨5, 2, 3, 4, 3⟩ ∧
    TimeSeriesInfo.fromList [20, 10] = ⟨2, 20, 20, 20, 15⟩ :=
  ⟨claim1_series_reduction.2.1 [3, 1, 5, 2, 4] (by decide),
   claim1_series_reduction.2.2 [20, 10] (by decide)⟩

/-- Claim C1, as stated, is false: the summing fold uses u64 addition, which
wraps modulo 2^64, so for the two-sample input [2^63, 2^63] the computed
average is 0 while floor(sum / count) is 2^63. -/
theorem claim1_counterexample :
    (TimeSeriesInfo.fromList [2 ^ 63, 2 ^ 63]).average ≠
      ([2 ^ 63, 2 ^ 63] : List Nat).sum / ([2 ^ 63, 2 ^ 63] : List Nat).length := by
  decide

/-- Claim C2: the count field always equals the input length; the empty
input gives the all-zero summary; a singleton input v1 gives count 1 and all
four other fields equal to v1. -/
theorem claim2_summary_basics :
    (∀ l : List Nat, (TimeSeriesInfo.fromList l).count = l.length) ∧
    TimeSeriesInfo.fromList [] = ⟨0, 0, 0, 0, 0⟩ ∧
    (∀ v : Nat, TimeSeriesInfo.fromList [v] = ⟨1, v, v, v, v⟩) := by
  refine ⟨fun l => ?_, by decide, fun v => rfl⟩
  by_cases h0 : l.length = 0
  · simp [TimeSeriesInfo.fromList, h0]
  · by_cases h1 : l.length = 1
    · simp [TimeSeriesInfo.fromList, h0, h1]
    · simp [TimeSeriesInfo.fromList, h0, h1]

/-- Claim C10: for every input of length at least two, the indices read by
the reducer are in bounds: d never exceeds p (so p - d does not underflow)
and p + d never exceeds count - 1; consequently each of the three reported
order statistics is an element of the input. -/
theorem claim10_index_safety :
    ∀ l : List Nat, 2 ≤ l.length →
      l.length / 2 / 2 ≤ l.length / 2 ∧
      l.length / 2 + l.length / 2 / 2 ≤ l.length - 1 ∧
      (TimeSeriesInfo.fromList l).median ∈ l ∧
      (TimeSeriesInfo.fromList l).lower_median ∈ l ∧
      (TimeSeriesInfo.fromList l).higher_median ∈ l := by
  intro l h2
  have hlen : (List.insertionSort (· ≤ ·) l).length = l.length :=
    (List.perm_insertionSort _ l).length_eq
  have hmem : ∀ i, i < l.length → (List.insertionSort (· ≤ ·) l).getD i 0 ∈ l := by
    intro i hi
    have hi2 : i < (List.insertionSort (· ≤ ·) l).length := by omega
    rw [List.getD_eq_getElem _ _ hi2]
    exact (List.perm_insertionSort _ l).mem_iff.mp (List.getElem_mem hi2)
  rw [fromList_eq_sorted l h2]
  exact ⟨by omega, by omega, hmem _ (by omega), hmem _ (by omega), hmem _ (by omega)⟩

/-- Claim C3: the TCP-state classification is a total partition. For every
state and every counter set, folding one state increments the counter named
by the classification table by exactly one, leaves the other five counters
unchanged, and raises the six-counter total by exactly one; the table sends
LISTEN to listen, ESTABLISHED to established, CLOSED to closed, SYN_SENT and
SYN_RECEIVED to starting, the five tear-down states to closing, and the
remaining states (TIME_WAIT, DELETE_TCB, unknown) to other. -/
theorem claim3_tcp_partition :
    (∀ (c : ConnectionsCount) (s : TcpState) (b : Bucket),
      (c.countState s).get b = c.get b + (if b = bucketOf s then 1 else 0)) ∧
    (∀ (c : ConnectionsCount) (s : TcpState), (c.countState s).total = c.total + 1) ∧
    bucketOf .Listen = .listen ∧
    bucketOf .Established = .established ∧
    bucketOf .Closed = .closed ∧
    bucketOf .SynSent = .starting ∧
    bucketOf .SynReceived = .starting ∧
    bucketOf .FinWait1 = .closing ∧
    bucketOf .FinWait2 = .closing ∧
    bucketOf .CloseWait = .closing ∧
    bucketOf .Closing = .closing ∧
    bucketOf .LastAck = .closing ∧
    bucketOf .TimeWait = .other ∧
    bucketOf .DeleteTcb = .other ∧
    bucketOf .Unknown = .other := by
  refine ⟨fun c s b => ?_, fun c s => ?_,
    rfl, rfl, rfl, rfl, rfl, rfl, rfl, rfl, rfl, rfl, rfl, rfl, rfl⟩
  · cases s <;> cases b <;>
      simp [ConnectionsCount.countState, ConnectionsCount.get, bucketOf]
  · cases s <;>
      simp [ConnectionsCount.countState, ConnectionsCount.total] <;> omega

theorem filterMap_keeps_ok {ε α β : Type} (f : α → Option β) (entries : List (Except ε α)) :
    (entries.filter Except.isOk).filterMap (fun r => r.toOption.bind f) =
      entries.filterMap fun r => r.toOption.bind f := by
  induction entries with
  | nil => rfl
  | cons r rest ih =>
    cases r with
    | error e => simpa [List.filter_cons, Except.isOk, Except.toBool, Except.toOption] using ih
    | ok s =>
      have hf : List.filter Except.isOk (Except.ok s :: rest) =
          Except.ok s :: List.filter Except.isOk rest := by
        simp [List.filter_cons, Except.isOk, Except.toBool]
      rw [hf, List.filterMap_cons, List.filterMap_cons, ih]

/-- Claim C7: `connections_info` is absent when the pid is unknown or the
socket enumeration itself fails; unreadable individual entries are dropped
silently, so the counts over any entry list equal the counts over just its
readable entries; and with a pid and a successful enumeration the result is
always present. -/
theorem claim7_connections_error_handling :
    (∀ socketsResult, connections_info none socketsResult = none) ∧
    (∀ pid : Int, connections_info (some pid) none = none) ∧
    (∀ (pid : Int) (entries : List (Except Unit SocketInfo)),
      connections_info (some pid) (some entries) =
        connections_info (some pid) (some (entries.filter Except.isOk))) ∧
    (∀ (pid : Int) (entries : List (Except Unit SocketInfo)),
      (connections_info (some pid) (some entries)).isSome = true) := by
  refine ⟨fun s => rfl, fun p => rfl, fun p entries => ?_, fun p entries => rfl⟩
  exact congrArg some
    (congrArg (fun l => l.foldl ConnectionsCount.countState ConnectionsCount.default)
      (filterMap_keeps_ok (socketState ((p % (2 ^ 32)).toNat)) entries).symm)

theorem claim10_index_safety_witness :
    ([5, 7] : List Nat).length / 2 / 2 ≤ ([5, 7] : List Nat).length / 2 ∧
    ([5, 7] : List Nat).length / 2 + ([5, 7] : List Nat).length / 2 / 2 ≤
      ([5, 7] : List Nat).length - 1 ∧
    (TimeSeriesInfo.fromList [5, 7]).median ∈ ([5, 7] : List Nat) ∧
    (TimeSeriesInfo.fromList [5, 7]).lower_median ∈ ([5, 7] : List Nat) ∧
    (TimeSeriesInfo.fromList [5, 7]).higher_median ∈ ([5, 7] : List Nat) :=
  claim10_index_safety [5, 7] (by decide)

/-- Claim C5, as stated, is false: process sampling can abort the tick. When
the per-tick `procfs::process::Process::new(pid)` lookup fails, the `expect`
at line 240 panics, so even with the OS refresh failing (where the claim
demands a zero-valued sample) no sample is returned. -/
theorem claim5_counterexample :
    (process_info (F := Unit)
      { refreshOk := false, proc := none, procNewOk := false,
        statResult := none, fdResult := none }).isSome = false := rfl

/-- Claim C5 (amended): provided the per-tick procfs lookup of the process's
own pid succeeds (the source treats its failure as impossible via `expect`)
and `get_process` honours the `sysinfo` contract of being present after a
successful refresh, process sampling never aborts the tick: a sample is
always returned, and when the OS refresh fails it is the zero-valued sample
(cpu_usage = 0, memory = 0) with the thread count and descriptor breakdown
still degrading independently to absent on their own query failures. -/
theorem claim5_process_sampling :
    ∀ (F : Type) [Inhabited F] (env : ProcessEnv F),
      env.procNewOk = true →
      (env.refreshOk = true → env.proc.isSome = true) →
      ((process_info env).isSome = true ∧
        (env.refreshOk = false →
          process_info env =
            some { cpu_usage := default, memory := 0,
                   threads := env.statResult, open_fd := env.fdResult.map countFds })) := by
  intro F _ env hnew hcontract
  constructor
  · unfold process_info processInfoFor
    cases hr : env.refreshOk with
    | false => simp [hnew]
    | true =>
      have hsome := hcontract hr
      cases hp : env.proc with
      | none => rw [hp] at hsome; simp at hsome
      | some d => simp [hp, hnew]
  · intro hr
    unfold process_info processInfoFor
    rw [hr]
    simp [hnew, ProcessInfo.zero]

theorem claim5_process_sampling_witness :
    (process_info (F := Unit)
      { refreshOk := false, proc := none, procNewOk := true,
        statResult := none, fdResult := none }).isSome = true ∧
    process_info (F := Unit)
      { refreshOk := false, proc := none, procNewOk := true,
        statResult := none, fdResult := none } =
      some { cpu_usage := default, memory := 0, threads := none, open_fd := none } := by
  have h := claim5_process_sampling Unit
    { refreshOk := false, proc := none, procNewOk := true,
      statResult := none, fdResult := none } rfl (fun hcontra => nomatch hcontra)
  exact ⟨h.1, h.2 rfl⟩

theorem setupRegister_ok_iff (reg : String → Option PrometheusError) :
    ∀ names : List String,
      (∃ ns, setupRegister reg names = Except.ok ns) ↔ ∀ n ∈ names, reg n = none
  | [] => by simp [setupRegister]
  | n :: rest => by
    cases hr : reg n with
    | some e =>
      simp only [setupRegister, hr]
      constructor
      · rintro ⟨ns, h⟩
        exact absurd h (by simp)
      · intro h
        exact absurd (h n (by simp)) (by simp [hr])
    | none =>
      simp only [setupRegister, hr]
      constructor
      · rintro ⟨ns, h⟩ m hm
        rcases List.mem_cons.mp hm with rfl | hm2
        · exact hr
        · cases hx : setupRegister reg rest with
          | error e2 => rw [hx] at h; simp [Except.map] at h
          | ok ns2 => exact ((setupRegister_ok_iff reg rest).mp ⟨ns2, hx⟩) m hm2
      · intro h
        rcases (setupRegister_ok_iff reg rest).mpr (fun m hm => h m (by simp [hm])) with ⟨ns, hx⟩
        exact ⟨n :: ns, by rw [hx]; rfl⟩

/-- Claim C6: a sink-bearing service is constructed exactly when every named
gauge registration succeeds, and whenever any single registration fails the
whole construction returns the error and no service value is produced. -/
theorem claim6_construction :
    ∀ reg : String → Option PrometheusError,
      ((with_prometheus reg 1).isOk = true ↔ ∀ n ∈ gaugeNames, reg n = none) ∧
      ((∃ n ∈ gaugeNames, ¬ reg n = none) →
        ∃ e, with_prometheus reg 1 = Except.error e) := by
  intro reg
  have h1 : (with_prometheus reg 1).isOk = true ↔
      ∃ ns, setupRegister reg gaugeNames = Except.ok ns := by
    unfold with_prometheus prometheusSetup
    cases hx : setupRegister reg gaugeNames with
    | error e => simp [Except.map, Except.isOk, Except.toBool]
    | ok ns => simp [Except.map, Except.isOk, Except.toBool]
  have hfull := h1.trans (setupRegister_ok_iff reg gaugeNames)
  refine ⟨hfull, ?_⟩
  rintro ⟨n, hn, hne⟩
  cases hx : with_prometheus reg 1 with
  | error e => exact ⟨e, rfl⟩
  | ok svc =>
    have hok : (with_prometheus reg 1).isOk = true := by rw [hx]; rfl
    exact absurd (hfull.mp hok n hn) hne

theorem claim6_construction_witness :
    (with_prometheus (fun _ => none) 1).isOk = true ∧
    (∃ e, with_prometheus
        (fun n => if n = "threads" then some { msg := "clash" } else none) 1 =
      Except.error e) :=
  ⟨(claim6_construction (fun _ => none)).1.mpr (by simp),
   (claim6_construction (fun n => if n = "threads" then some { msg := "clash" } else none)).2
     ⟨"threads", by simp [gaugeNames], by simp⟩⟩

theorem process_info_isSome {F : Type} [Inhabited F] (env : ProcessEnv F)
    (hnew : env.procNewOk = true)
    (hcontract : env.refreshOk = true → env.proc.isSome = true) :
    (process_info env).isSome = true := by
  unfold process_info processInfoFor
  cases hr : env.refreshOk with
  | false => simp [hnew]
  | true =>
    have hsome := hcontract hr
    cases hp : env.proc with
    | none => rw [hp] at hsome; simp at hsome
    | some d => simp [hp, hnew]

/-- Claim C4, as stated, is false: an invocation of tick in which the
process-sampling call at line 355 panics (the `expect` at line 240 firing on
a failed per-tick procfs lookup) aborts before the telemetry send at line
357 and the drain at line 385, so that invocation produces no effect at all:
the buffer is not drained and no telemetry event is emitted. -/
theorem claim4_counterexample :
    tickRun (F := Unit) none infoC txpoolC netC
      { refreshOk := true, proc := some { cpu_usage := (), memory := 5 },
        procNewOk := false, statResult := none, fdResult := none }
      () () () none none [] [("k", 1)] = none := rfl

/-- Claim C4 (amended): in every invocation of tick in which the
process-sampling call returns a sample (the per-tick procfs lookup of the
process's own pid succeeding and `get_process` honouring the `sysinfo`
refresh contract; the code treats sampling failure as impossible), the tick
completes, the event buffer is drained (left empty) and the telemetry event
is emitted, regardless of whether a metrics sink was configured at
construction; and when no sink is configured, no gauge is ever read or
written during the tick. -/
theorem claim4_tick_drain_and_telemetry :
    ∀ (F : Type) [Inhabited F] (metrics : Option Unit) (info : ClientInfoM)
      (txpool : PoolStatusM) (net : NetworkStatusM) (penv : ProcessEnv F)
      (load1 load5 load15 : F) (pid : Option Int)
      (sockets : Option (List (Except Unit SocketInfo)))
      (lowLevel : List (String × Nat)) (buffer : List (String × Nat)),
      (penv.procNewOk = true →
        (penv.refreshOk = true → penv.proc.isSome = true) →
        (tickRun metrics info txpool net penv load1 load5 load15 pid sockets
          lowLevel buffer).isSome = true) ∧
      (∀ (trace : List (Effect F)) (buf : List (String × Nat)),
        tickRun metrics info txpool net penv load1 load5 load15 pid sockets lowLevel buffer
            = some (trace, buf) →
        buf = [] ∧
        Effect.flushSeries ∈ trace ∧
        (∃ ev, Effect.telemetry ev ∈ trace) ∧
        (metrics = none →
          ∀ (g : GaugeFamily) (label : Option String) (v : GaugeVal F),
            Effect.gaugeSet g label v ∉ trace)) := by
  intro F _ metrics info txpool net penv load1 load5 load15 pid sockets lowLevel buffer
  constructor
  · intro hnew hcontract
    have hs := process_info_isSome penv hnew hcontract
    unfold tickRun
    cases hpi : process_info penv with
    | none => rw [hpi] at hs; simp at hs
    | some pinfo => rfl
  · intro trace buf heq
    unfold tickRun at heq
    cases hpi : process_info penv with
    | none => rw [hpi] at heq; exact absurd heq (by simp)
    | some pinfo =>
      rw [hpi] at heq
      have hpair : tick metrics info txpool net pinfo load1 load5 load15 pid sockets
          lowLevel buffer = (trace, buf) := by
        injection heq
      have h1 : (tick metrics info txpool net pinfo load1 load5 load15 pid sockets
          lowLevel buffer).1 = trace := congrArg Prod.fst hpair
      have h2 : (tick metrics info txpool net pinfo load1 load5 load15 pid sockets
          lowLevel buffer).2 = buf := congrArg Prod.snd hpair
      refine ⟨?_, ?_, ?_, ?_⟩
      · rw [← h2]
        rfl
      · rw [← h1]
        exact List.mem_append_left _ (List.mem_cons_of_mem _ (List.mem_cons_self _ _))
      · rw [← h1]
        exact ⟨_, List.mem_append_left _ (List.mem_cons_self _ _)⟩
      · rintro rfl g label v
        rw [← h1]
        unfold tick
        simp

theorem claim4_tick_drain_and_telemetry_witness :
    (tickRun (F := Unit) none infoC txpoolC netC
      { refreshOk := false, proc := none, procNewOk := true,
        statResult := none, fdResult := none }
      () () () none none [] []).isSome = true ∧
    Effect.flushSeries ∈
      [Effect.telemetry (F := Unit)
        { peers := 4, height := 7, best := 1, txcount := 3, cpu := (), memory := 0,
          finalized_height := 5, finalized_hash := 2, bandwidth_download := 9,
          bandwidth_upload := 8, used_state_cache_size := 0, used_db_cache_size := 0,
          disk_read_per_sec := 0, disk_write_per_sec := 0 }, Effect.flushSeries] ∧
    Effect.gaugeSet .internals (some "x") (.u 0) ∉
      [Effect.telemetry (F := Unit)
        { peers := 4, height := 7, best := 1, txcount := 3, cpu := (), memory := 0,
          finalized_height := 5, finalized_hash := 2, bandwidth_download := 9,
          bandwidth_upload := 8, used_state_cache_size := 0, used_db_cache_size := 0,
          disk_read_per_sec := 0, disk_write_per_sec := 0 }, Effect.flushSeries] := by
  have h := claim4_tick_drain_and_telemetry Unit none infoC txpoolC netC
    { refreshOk := false, proc := none, procNewOk := true,
      statResult := none, fdResult := none } () () () none none [] []
  have h2 := h.2
    [Effect.telemetry
      { peers := 4, height := 7, best := 1, txcount := 3, cpu := (), memory := 0,
        finalized_height := 5, finalized_hash := 2, bandwidth_download := 9,
        bandwidth_upload := 8, used_state_cache_size := 0, used_db_cache_size := 0,
        disk_read_per_sec := 0, disk_write_per_sec := 0 }, Effect.flushSeries]
    [] rfl
  exact ⟨h.1 rfl (fun hc => nomatch hc), h2.2.1, h2.2.2.2 rfl .internals (some "x") (.u 0)⟩

theorem openFdLabelValues_nil {F : Type} : openFdLabelValues (F := F) [] = [] := rfl

theorem openFdLabelValues_cons_none {F : Type} (e : Effect F) (rest : List (Effect F))
    (h : openFdPick F e = none) :
    openFdLabelValues (e :: rest) = openFdLabelValues rest := by
  unfold openFdLabelValues
  rw [List.filterMap_cons, h]

theorem openFdLabelValues_append {F : Type} (l1 l2 : List (Effect F)) :
    openFdLabelValues (l1 ++ l2) = openFdLabelValues l1 ++ openFdLabelValues l2 := by
  unfold openFdLabelValues
  exact List.filterMap_append l1 l2 _

theorem openFdPick_lowLevelWrite {F : Type} (kv : String × Nat) :
    openFdPick F (lowLevelWrite F kv) = none := by
  unfold lowLevelWrite
  split
  · rfl
  · split <;> rfl

theorem openFdLabelValues_lowLevel {F : Type} (lowLevel : List (String × Nat)) :
    openFdLabelValues (lowLevel.map (lowLevelWrite F)) = [] := by
  induction lowLevel with
  | nil => rfl
  | cons kv rest ih =>
    rw [List.map_cons, openFdLabelValues_cons_none _ _ (openFdPick_lowLevelWrite kv), ih]

theorem openFdLabelValues_seriesWrites {F : Type} (key : String) (values : List Nat) :
    openFdLabelValues (seriesWrites F key values) = [] := rfl

theorem openFdLabelValues_genericSeries {F : Type} (grouped : List (String × List Nat)) :
    openFdLabelValues (genericSeriesWrites F grouped) = [] := by
  induction grouped with
  | nil => rfl
  | cons p rest ih =>
    have hstep : genericSeriesWrites F (p :: rest) =
        seriesWrites F p.1 p.2 ++ genericSeriesWrites F rest := rfl
    rw [hstep, openFdLabelValues_append, openFdLabelValues_seriesWrites, ih]
    rfl

theorem openFdLabelValues_blockImport {F : Type} (values : List Nat) :
    openFdLabelValues (blockImportWrites F values) = [] := rfl

theorem openFdLabelValues_netstat {F : Type} (c : ConnectionsCount) :
    openFdLabelValues (netstatWrites F c) = [] := rfl

theorem openFdLabelValues_fdWrites {F : Type} (fd : FdCounter) :
    openFdLabelValues (fdWrites F fd) =
      [("paths", .u fd.paths), ("mem", .u fd.mem), ("sockets", .u fd.sockets),
       ("net", .u fd.net), ("pipe", .u fd.pipes), ("anon_inode", .u fd.anon_inode),
       ("other", .u fd.other)] := rfl

theorem openFdLabelValues_head {F : Type} (ev : TelemetryEvent F) :
    openFdLabelValues [Effect.telemetry ev, Effect.flushSeries] = [] := rfl

theorem openFdLabelValues_cpuMem {F : Type} (x : F) (m : Nat) :
    openFdLabelValues
      [ Effect.gaugeSet .cpu_usage_percentage none (.f x),
        Effect.gaugeSet .memory_usage_bytes none (.u m) ] = [] := rfl

theorem openFdLabelValues_scalars {F : Type} (a b c : F) (d u fz bz r : Nat) :
    openFdLabelValues
      [ Effect.gaugeSet .load_avg (some "1min") (.f a),
        Effect.gaugeSet .load_avg (some "5min") (.f b),
        Effect.gaugeSet .load_avg (some "15min") (.f c),
        Effect.gaugeSet .network_per_sec_bytes (some "download") (.u d),
        Effect.gaugeSet .network_per_sec_bytes (some "upload") (.u u),
        Effect.gaugeSet .block_height_number (some "finalized") (.u fz),
        Effect.gaugeSet .block_height_number (some "best") (.u bz),
        Effect.gaugeSet .ready_transactions_number none (.u r) ] = [] := rfl

/-- Claim C9, as stated, is false: at a tick with a sink and a concrete
descriptor breakdown, the seven fd_type labels the code writes are paths,
mem, sockets, net, pipe, anon_inode and other; no write carries the label
pipes claimed by the spec (the pipe count is exported under the label
pipe). -/
theorem claim9_counterexample :
    openFdLabelValues
        (tick (F := Unit) (some ()) infoC txpoolC netC pinfoWithFd () () ()
          none none [] []).1 =
      [("paths", .u 1), ("mem", .u 6), ("sockets", .u 2), ("net", .u 3),
       ("pipe", .u 4), ("anon_inode", .u 5), ("other", .u 7)] ∧
    "pipes" ∉
      (openFdLabelValues
        (tick (F := Unit) (some ()) infoC txpoolC netC pinfoWithFd () () ()
          none none [] []).1).map Prod.fst := by
  decide

/-- Claim C9 (amended): when the descriptor breakdown is available, every
sink-bearing tick writes the open_file_handles gauge with exactly the seven
fd_type label values paths, mem, sockets, net, pipe, anon_inode and other
(the pipe count is labelled pipe, not pipes), each carrying the
corresponding FdCounter field. -/
theorem claim9_fd_labels :
    ∀ (F : Type) (info : ClientInfoM) (txpool : PoolStatusM) (net : NetworkStatusM)
      (pinfo : ProcessInfo F) (load1 load5 load15 : F) (pid : Option Int)
      (sockets : Option (List (Except Unit SocketInfo)))
      (lowLevel : List (String × Nat)) (buffer : List (String × Nat)) (fd : FdCounter),
      pinfo.open_fd = some fd →
      openFdLabelValues
          (tick (some ()) info txpool net pinfo load1 load5 load15 pid sockets
            lowLevel buffer).1 =
        [("paths", .u fd.paths), ("mem", .u fd.mem), ("sockets", .u fd.sockets),
         ("net", .u fd.net), ("pipe", .u fd.pipes), ("anon_inode", .u fd.anon_inode),
         ("other", .u fd.other)] := by
  intro F info txpool net pinfo load1 load5 load15 pid sockets lowLevel buffer fd hfd
  have htr : (tick (some ()) info txpool net pinfo load1 load5 load15 pid sockets
        lowLevel buffer).1 =
      [Effect.telemetry _, Effect.flushSeries] ++
        gaugeWrites pinfo load1 load5 load15 info txpool net
          (connections_info pid sockets) lowLevel buffer := rfl
  have hthreads : openFdLabelValues
      (match pinfo.threads with
        | some t => [Effect.gaugeSet .threads none (.u t)]
        | none => ([] : List (Effect F))) = [] := by
    cases pinfo.threads with
    | none => rfl
    | some t => rfl
  have hseen : openFdLabelValues
      (match net.best_seen_block with
        | some b => [Effect.gaugeSet .block_height_number (some "sync_target") (.u b)]
        | none => ([] : List (Effect F))) = [] := by
    cases net.best_seen_block with
    | none => rfl
    | some b => rfl
  have husage : openFdLabelValues
      (match info.usage with
        | some u =>
          [ Effect.gaugeSet .database_cache none (.u u.database_cache),
            Effect.gaugeSet .state_cache none (.u u.state_cache),
            Effect.gaugeSet .state_db (some "non_canonical") (.u u.state_db_non_canonical) ]
          ++ (match u.state_db_pruning with
              | some pr => [Effect.gaugeSet .state_db (some "pruning") (.u pr)]
              | none => [])
          ++ [Effect.gaugeSet .state_db (some "pinned") (.u u.state_db_pinned)]
        | none => ([] : List (Effect F))) = [] := by
    cases info.usage with
    | none => rfl
    | some u =>
      cases hpr : u.state_db_pruning with
      | none => simp [openFdLabelValues, hpr, openFdPick]
      | some pr => simp [openFdLabelValues, hpr, openFdPick]
  have hconns : openFdLabelValues
      (match connections_info pid sockets with
        | some c => netstatWrites F c
        | none => ([] : List (Effect F))) = [] := by
    cases connections_info pid sockets with
    | none => rfl
    | some c => rfl
  have hbi : openFdLabelValues
      (match List.lookup "block_imports" (groupSeries buffer) with
        | some vs => blockImportWrites F vs
        | none => ([] : List (Effect F))) = [] := by
    cases List.lookup "block_imports" (groupSeries buffer) with
    | none => rfl
    | some vs => rw [openFdLabelValues_blockImport]
  rw [htr]
  simp only [gaugeWrites, hfd, openFdLabelValues_append]
  rw [openFdLabelValues_head, openFdLabelValues_cpuMem, openFdLabelValues_scalars,
    openFdLabelValues_fdWrites, openFdLabelValues_lowLevel,
    openFdLabelValues_genericSeries, hthreads, hseen, husage, hconns, hbi]
  simp

theorem claim9_fd_labels_witness :
    openFdLabelValues
        (tick (F := Unit) (some ()) infoC txpoolC netC pinfoWithFd () () ()
          none none [("k", 11)] [("block_imports", 2)]).1 =
      [("paths", .u 1), ("mem", .u 6), ("sockets", .u 2), ("net", .u 3),
       ("pipe", .u 4), ("anon_inode", .u 5), ("other", .u 7)] :=
  claim9_fd_labels Unit infoC txpoolC netC pinfoWithFd () () () none none
    [("k", 11)] [("block_imports", 2)] _ rfl

/-- Claim C8 is right and the code is wrong: the generic per-key export is
meant to append the five suffixes _count, _average, _median, _lower_median
and _higher_median, but line 477 formats the lower-median label as
`_lower_media` (dropping the final n of the field name `lower_median` it is
exporting, while the sibling line writes `_higher_median`). Evaluating the
tick at a drained buffer holding the non-reserved key `foo` shows the five
internals labels actually written, with `foo_lower_media` in place of the
claimed `foo_lower_median`. -/
theorem claim8_series_export_labels :
    internalsLabels
        (tick (F := Unit) (some ()) infoC txpoolC netC pinfoPlain () () ()
          none none [] [("foo", 1), ("foo", 2)]).1 =
      ["foo_count", "foo_average", "foo_median", "foo_lower_media", "foo_higher_median"] ∧
    "foo_lower_median" ∉
      internalsLabels
        (tick (F := Unit) (some ()) infoC txpoolC netC pinfoPlain () () ()
          none none [] [("foo", 1), ("foo", 2)]).1 := by
  decide

end Metrics
